import Mathlib

/-!
# Verification of the Themes catalog pagination & index generation engine

A shallow embedding of `.github/generate.py`: the paginator (`write_pages`),
the deterministic page-filename scheme (`format_page_filename`, backed by a
full SHAKE-128 implementation over `Nat`), the pagination navigator
(`generate_page_links` and friends), the bounded recency tracker
(`recents_maybe_append` / `generate_recents_grid`), and the per-entry
metadata resolver (`generate_item`).

External collaborators (filesystem, git, template substitution, URL
encoding) are modelled as explicit function parameters, following the
spec's collaborator interfaces.  Constants that live in modules not
present under `src/` (`defs.py`, `generate_icons.py`) are modelled from
the spec and marked as such in their doc comments.
-/

namespace Themes

set_option maxRecDepth 1000000
set_option maxHeartbeats 2000000

/-! ## SHAKE-128 (Keccak) over `Nat`

`format_page_filename` calls `hashlib.shake_128(prefix.encode("utf-8")).hexdigest(2)`.
We implement SHAKE-128 (FIPS 202) from scratch: lanes are `Nat` values kept
below `2^64` by explicit masking.
-/

/-- The lane modulus `2^64` of Keccak-f[1600]. -/
def U64 : Nat := 2 ^ 64

/-- Rotate a 64-bit lane (a `Nat < 2^64`) left by `n` bits. -/
def rotl64 (x n : Nat) : Nat :=
  ((x <<< (n % 64)) % U64) ||| (x >>> (64 - n % 64))

/-- One step of the degree-8 LFSR of FIPS 202 §3.2.5
(feedback polynomial `x^8 + x^6 + x^5 + x^4 + 1`). -/
def rcLFSR (r : Nat) : Nat :=
  let r' := r <<< 1
  if r' &&& 0x100 = 0 then r' else (r' ^^^ 0x71) &&& 0xFF

/-- `rc(t)` of FIPS 202: the low bit of the LFSR register after `t` steps
from the initial register value 1. -/
def rcBit (t : Nat) : Nat :=
  ((List.range t).foldl (fun r _ => rcLFSR r) 1) &&& 1

/-- The 24 Keccak-f[1600] round constants, computed by the FIPS 202
algorithm: `RC[i]` has bit `2^j - 1` set iff `rc(j + 7i) = 1`. -/
def keccakRC : List Nat :=
  (List.range 24).map fun i =>
    (List.range 7).foldl (fun acc j => acc ||| (rcBit (j + 7 * i) <<< (2 ^ j - 1))) 0

/-- The ρ-step rotation offsets, indexed by `x + 5*y`, computed by the
FIPS 202 walk: starting from `(x, y) = (1, 0)`, write the triangular
number `(t+1)(t+2)/2 mod 64` at each visited position and step
`(x, y) ↦ (y, (2x + 3y) mod 5)`; position `(0, 0)` keeps offset 0. -/
def rhoOffsets : List Nat :=
  ((List.range 24).foldl
    (fun st t =>
      (st.1.set (st.2.1 + 5 * st.2.2) ((t + 1) * (t + 2) / 2 % 64),
       st.2.2, (2 * st.2.1 + 3 * st.2.2) % 5))
    (List.replicate 25 0, 1, 0)).1

/-- Lane `A[x, y]` of a 25-lane state (coordinates taken mod 5). -/
def lane (s : List Nat) (x y : Nat) : Nat :=
  s.getD (x % 5 + 5 * (y % 5)) 0

/-- Keccak θ step. -/
def keccakTheta (s : List Nat) : List Nat :=
  let C : Nat → Nat := fun x =>
    lane s x 0 ^^^ lane s x 1 ^^^ lane s x 2 ^^^ lane s x 3 ^^^ lane s x 4
  let D : Nat → Nat := fun x => C ((x + 4) % 5) ^^^ rotl64 (C ((x + 1) % 5)) 1
  (List.range 25).map fun i => lane s (i % 5) (i / 5) ^^^ D (i % 5)

/-- Keccak ρ and π steps combined: `B[y, 2x+3y] = rotl(A[x, y], r[x, y])`,
expressed via the inverse index map (`3` is the inverse of `2` mod `5`). -/
def keccakRhoPi (s : List Nat) : List Nat :=
  (List.range 25).map fun j =>
    let bx := j % 5
    let by' := j / 5
    let y := bx
    let x := (3 * (by' + 15 - 3 * bx)) % 5
    rotl64 (lane s x y) (rhoOffsets.getD (x + 5 * y) 0)

/-- Keccak χ step: `A[x, y] = B[x, y] xor ((not B[x+1, y]) and B[x+2, y])`. -/
def keccakChi (s : List Nat) : List Nat :=
  (List.range 25).map fun j =>
    let x := j % 5
    let y := j / 5
    lane s x y ^^^ ((lane s (x + 1) y ^^^ (U64 - 1)) &&& lane s (x + 2) y)

/-- Keccak ι step: xor the round constant into lane (0, 0). -/
def keccakIota (rc : Nat) (s : List Nat) : List Nat :=
  s.set 0 (lane s 0 0 ^^^ rc)

/-- The Keccak-f[1600] permutation: 24 rounds of θ, ρ, π, χ, ι. -/
def keccakF (s : List Nat) : List Nat :=
  keccakRC.foldl (fun st rc => keccakIota rc (keccakChi (keccakRhoPi (keccakTheta st)))) s

/-- Little-endian value of a byte list. -/
def leVal : List Nat → Nat
  | [] => 0
  | b :: rest => b % 256 + 256 * leVal rest

/-- Split a 168-byte rate block into 21 little-endian 64-bit lanes. -/
def blockLanes (bytes : List Nat) : List Nat :=
  (List.range 21).map fun i => leVal ((bytes.drop (8 * i)).take 8)

/-- Absorb one 168-byte block: xor it into the state and permute. -/
def absorbBlock (st bytes : List Nat) : List Nat :=
  let lanes := blockLanes bytes
  keccakF ((List.range 25).map fun i => st.getD i 0 ^^^ lanes.getD i 0)

/-- Split a byte list into chunks of 168 bytes (structural recursion on a
fuel bound so that the kernel can evaluate it). -/
def chunksAux : Nat → List Nat → List (List Nat)
  | _, [] => []
  | 0, l => [l]
  | fuel + 1, b :: rest => ((b :: rest).take 168) :: chunksAux fuel ((b :: rest).drop 168)

/-- Split a byte list into chunks of 168 bytes. -/
def chunks168 (l : List Nat) : List (List Nat) :=
  chunksAux l.length l

/-- SHAKE-128 padding (FIPS 202 `pad10*1` with domain suffix `1111`):
append `0x1F`, zero-fill to the 168-byte rate, and set the top bit of the
final byte (`0x9F` when a single padding byte remains). -/
def shakePadBytes (msg : List Nat) : List Nat :=
  let q := 168 - msg.length % 168
  if q = 1 then msg ++ [0x9F]
  else msg ++ 0x1F :: (List.replicate (q - 2) 0 ++ [0x80])

/-- The Keccak state after absorbing the whole (padded) message. -/
def shakeState (msg : List Nat) : List Nat :=
  (chunks168 (shakePadBytes msg)).foldl absorbBlock (List.replicate 25 0)

/-- The 8 bytes of a 64-bit lane, little-endian. -/
def laneBytesLE (x : Nat) : List Nat :=
  (List.range 8).map fun i => x / 256 ^ i % 256

/-- First `n` output bytes of SHAKE-128 on the given message bytes
(single squeeze block, valid for `n ≤ 168`; the source only uses `n = 2`). -/
def shake_128_bytes (msg : List Nat) (n : Nat) : List Nat :=
  ((((shakeState msg).take 21).map laneBytesLE).flatten).take n

/-- Lowercase hex digit: `0`–`9` for values below ten, `a`–`f` above. -/
def hexChar (n : Nat) : Char :=
  Char.ofNat (n + if n < 10 then 48 else 87)

/-- Two lowercase hex characters of a byte. -/
def byteHex (b : Nat) : String :=
  String.mk [hexChar (b / 16 % 16), hexChar (b % 16)]

/-- Lowercase hex string of a byte list. -/
def bytesHex (bs : List Nat) : String :=
  String.join (bs.map byteHex)

/-- `hashlib.shake_128(msg).hexdigest(n)`: `2*n` lowercase hex characters. -/
def shake_128_hexdigest (msg : List Nat) (n : Nat) : String :=
  bytesHex (shake_128_bytes msg n)

/-- UTF-8 encoding of one character (`str.encode("utf-8")`, per code point). -/
def utf8Char (c : Char) : List Nat :=
  let n := c.toNat
  if n < 0x80 then [n]
  else if n < 0x800 then [0xC0 + n / 64, 0x80 + n % 64]
  else if n < 0x10000 then [0xE0 + n / 4096, 0x80 + n / 64 % 64, 0x80 + n % 64]
  else [0xF0 + n / 0x40000, 0x80 + n / 4096 % 64, 0x80 + n / 64 % 64, 0x80 + n % 64]

/-- UTF-8 bytes of a string (`s.encode("utf-8")`). -/
def utf8Bytes (s : String) : List Nat :=
  (s.data.map utf8Char).flatten

/-! ## Page filenames (`format_page_filename`) -/

/-- Python `f"{n:02}"` for a natural number: zero-pad to width 2. -/
def pad2 (n : Nat) : String :=
  if n < 10 then "0" ++ Nat.repr n else Nat.repr n

/-- `format_page_filename(page, num_pages)` from the source: `index.md` for
page 0, else `index-<prefix>-<hash[:2]>.md` with `prefix = f"{num_pages - page:02}"`
and `hash = shake_128(prefix.encode("utf-8")).hexdigest(2)`. -/
def format_page_filename (page num_pages : Nat) : String :=
  let pfx := pad2 (num_pages - page)
  let page_hash := shake_128_hexdigest (utf8Bytes pfx) 2
  if page = 0 then "index.md" else "index-" ++ pfx ++ "-" ++ (page_hash.take 2) ++ ".md"

/-! ## Modelled constants

The following constants are defined in `defs.py`, which is not part of
`src/`; their values are modelled from the spec.  No claim depends on the
exact value of any of them.
-/

/-- Modelled from the spec: the non-breaking-space padding around link
labels (`NB_SPACE` in `defs.py`, which is not in `src/`). -/
def NB_SPACE : String := "&nbsp;"

/-- Modelled from the spec: the wide spacer separating the centered window
from its neighbors (`LB_SPACER` in `defs.py`, which is not in `src/`). -/
def LB_SPACER : String := "&nbsp;&nbsp;"

/-- Modelled from the spec: a narrow spacer used inside item fragments
(`NB_SPACER` in `defs.py`, which is not in `src/`). -/
def NB_SPACER : String := "&nbsp;"

/-- Modelled from the spec: icon URL of the previous-page button
(`PREV_PAGE_ICON_URL` in `defs.py`, which is not in `src/`). -/
def PREV_PAGE_ICON_URL : String := "prev.svg"

/-- Modelled from the spec: icon URL of the next-page button
(`NEXT_PAGE_ICON_URL` in `defs.py`, which is not in `src/`). -/
def NEXT_PAGE_ICON_URL : String := "next.svg"

/-- Modelled from the spec: the fixed auto-generated banner prepended by
`write_file` (`WARN_GENERATED_FILE` in `defs.py`, which is not in `src/`). -/
def WARN_GENERATED_FILE : String := "<!-- Auto-generated file - do not edit -->\n\n"

/-- Modelled from the spec: root directory of theme entries (`THEME_DIR`
in `defs.py`, which is not in `src/`). -/
def THEME_DIR : String := "themes"

/-- Modelled from the spec: output directory of the paginated documents
(`PAGES_DIR` in `defs.py`, which is not in `src/`). -/
def PAGES_DIR : String := "pages"

/-- Modelled from the spec: the fixed ordered list of candidate
documentation filenames probed by the metadata resolver (`README_TEST`
in `defs.py`, which is not in `src/`; the spec lists exactly these four). -/
def README_TEST : List String := ["readme.md", "README.md", "readme.txt", "README.txt"]

/-! ## Pagination navigator (`generate_page_links`) -/

/-- Python `sep.join(xs)`. -/
def joinSep (sep : String) : List String → String
  | [] => ""
  | [s] => s
  | s :: rest => s ++ sep ++ joinSep sep rest

/-- Python `range(a, b)` as a list. -/
def rangeList (a b : Nat) : List Nat :=
  (List.range (b - a)).map (a + ·)

/-- `generate_page_link(page, current_page, num_pages)` from the source:
the current page renders as bold non-link text, any other page as a link
to that page's filename, the label padded with `NB_SPACE` on both sides. -/
def generate_page_link (page current_page num_pages : Nat) : String :=
  if page = current_page then NB_SPACE ++ "**" ++ Nat.repr (page + 1) ++ "**" ++ NB_SPACE
  else "[" ++ NB_SPACE ++ Nat.repr (page + 1) ++ NB_SPACE ++ "](" ++ format_page_filename page num_pages ++ ")"

/-- `generate_page_link_range(rng, current_page, num_pages)` from the source:
the links of the given pages joined by single spaces. -/
def generate_page_link_range (rng : List Nat) (current_page num_pages : Nat) : String :=
  joinSep " " (rng.map fun page => generate_page_link page current_page num_pages)

/-- `generate_page_links(current_page, num_pages)` from the source.  For
`num_pages ≤ 9` every page is linked; otherwise the strip is
head, (range | ellipsis), (window | space), (range | ellipsis), tail,
with `cutoff = 5` and `half_cut = 2`. -/
def generate_page_links (current_page num_pages : Nat) : String :=
  if num_pages ≤ 9 then
    generate_page_link_range (List.range num_pages) current_page num_pages
  else
    let last_page := num_pages - 1
    let cutoff := 5
    let half_cut := cutoff / 2
    let ellipsis := "&hellip;"
    let is_low := current_page < cutoff
    let is_high := last_page - cutoff < current_page
    generate_page_link 0 current_page num_pages
      ++ (if is_low then " " ++ generate_page_link_range (rangeList 1 (cutoff + 2)) current_page num_pages
          else NB_SPACE ++ ellipsis)
      ++ (if is_low || is_high then " "
          else LB_SPACER ++ generate_page_link_range
                 (rangeList (current_page - half_cut) (current_page + half_cut + 1)) current_page num_pages
               ++ " ")
      ++ (if is_high then generate_page_link_range (rangeList (last_page - cutoff - 1) last_page) current_page num_pages ++ " "
          else ellipsis ++ NB_SPACE)
      ++ generate_page_link last_page current_page num_pages

/-- `generate_pagination(current_page, num_pages)` from the source: a
centered table holding a previous-page button (when not on the first
page), the link strip, and a next-page button (when not on the last page). -/
def generate_pagination (current_page num_pages : Nat) : String :=
  "---\n\n<table align=\"center\"><tr>"
    ++ (if 0 < current_page then
          "<td align=\"right\">\n\n[![Previous page](" ++ PREV_PAGE_ICON_URL ++ ")]("
            ++ format_page_filename (current_page - 1) num_pages ++ ")\n\n</td>"
        else "")
    ++ "<td align=\"center\" valign=\"middle\">\n\n" ++ generate_page_links current_page num_pages ++ "\n\n</td>"
    ++ (if current_page < num_pages - 1 then
          "<td>\n\n[![Next page](" ++ NEXT_PAGE_ICON_URL ++ ")]("
            ++ format_page_filename (current_page + 1) num_pages ++ ")\n\n</td>"
        else "")
    ++ "</tr></table>"

/-! ## Paginator (`write_pages`) -/

/-- The external collaborators of `write_pages`: the rendered header for a
given output path (`apply_template(HEADER_TEMPLATE, ...)`), the item grid
generator passed in by the caller, and the category's display title
(`PAGE_TITLES[group_name]`). -/
structure PageEnv (α : Type) where
  header : String → String
  grid : List α → String
  page_title : String

/-- `num_pages = math.ceil(total / page_size)` from the source, as exact
natural-number ceiling division. -/
def num_pages_of (total page_size : Nat) : Nat :=
  (total + page_size - 1) / page_size

/-- `batch = items[page*page_size : page*page_size + page_size]` from the
source: the contiguous slice rendered on the given page. -/
def page_batch (items : List α) (page_size page : Nat) : List α :=
  (items.drop (page * page_size)).take page_size

/-- `os.path.join(PAGES_DIR, group_name, format_page_filename(...))`. -/
def page_path (group_name : String) (page num_pages : Nat) : String :=
  PAGES_DIR ++ "/" ++ group_name ++ "/" ++ format_page_filename page num_pages

/-- The document body built for one page by the loop of `write_pages`:
header, category heading with "Page X of Y — N items available", the item
grid of the page's batch, and — when more than one page exists — the
pagination navigation. -/
def page_buffer (env : PageEnv α) (items : List α) (group_name : String) (page_size page : Nat) : String :=
  let total := items.length
  let np := num_pages_of total page_size
  env.header (page_path group_name page np)
    ++ "\n## " ++ env.page_title ++ "\n\n*Page " ++ Nat.repr (page + 1) ++ " of "
    ++ Nat.repr np ++ " — " ++ Nat.repr total ++ " items available*\n"
    ++ env.grid (page_batch items page_size page) ++ "\n\n"
    ++ (if 1 < np then generate_pagination page np else "")

/-- `write_pages(items, group_name, item_grid_generator, page_size)` from
the source, modelled as the list of `(path, contents)` pairs written by
`write_file` (which prepends the auto-generated banner). -/
def write_pages (env : PageEnv α) (items : List α) (group_name : String) (page_size : Nat) :
    List (String × String) :=
  (List.range (num_pages_of items.length page_size)).map fun page =>
    (page_path group_name page (num_pages_of items.length page_size),
     WARN_GENERATED_FILE ++ page_buffer env items group_name page_size page)

/-! ## Token-level view of the link strip

To state structural properties of the navigator (how many ellipses, which
pages appear, what comes first and last) we give a token-level rendering
of `generate_page_links` and prove that it renders to exactly the string
the source produces.
-/

/-- One atom of the link strip: a page entry (link or bold current page),
a literal separator/spacer, or an ellipsis marker. -/
inductive PLTok where
  | entry (page : Nat)
  | lit (s : String)
  | ell
deriving DecidableEq, Repr

/-- The string a token renders to, in the context of a current page and a
total page count. -/
def tokStr (current_page num_pages : Nat) : PLTok → String
  | .entry p => generate_page_link p current_page num_pages
  | .lit s => s
  | .ell => "&hellip;"

/-- Concatenation of a list of strings. -/
def strConcat : List String → String
  | [] => ""
  | s :: rest => s ++ strConcat rest

/-- Render a token list to a string. -/
def renderToks (current_page num_pages : Nat) (ts : List PLTok) : String :=
  strConcat (ts.map (tokStr current_page num_pages))

/-- The tokens of a space-separated run of page entries (mirroring the
`" ".join` recursion of `generate_page_link_range`). -/
def entryToks : List Nat → List PLTok
  | [] => []
  | [p] => [.entry p]
  | p :: q :: rest => .entry p :: .lit " " :: entryToks (q :: rest)

/-- The token-level form of `generate_page_links`, branch for branch. -/
def pageLinkToks (current_page num_pages : Nat) : List PLTok :=
  if num_pages ≤ 9 then entryToks (List.range num_pages)
  else
    let last_page := num_pages - 1
    let cutoff := 5
    let half_cut := cutoff / 2
    let is_low := current_page < cutoff
    let is_high := last_page - cutoff < current_page
    [.entry 0]
      ++ (if is_low then .lit " " :: entryToks (rangeList 1 (cutoff + 2)) else [.lit NB_SPACE, .ell])
      ++ (if is_low || is_high then [.lit " "]
          else .lit LB_SPACER ::
            (entryToks (rangeList (current_page - half_cut) (current_page + half_cut + 1)) ++ [.lit " "]))
      ++ (if is_high then entryToks (rangeList (last_page - cutoff - 1) last_page) ++ [.lit " "]
          else [.ell, .lit NB_SPACE])
      ++ [.entry last_page]

/-- The pages of the entry tokens of a token list, in order. -/
def entriesOf (ts : List PLTok) : List Nat :=
  ts.filterMap fun t => match t with | .entry p => some p | _ => none

/-- The number of ellipsis tokens of a token list. -/
def ellCount (ts : List PLTok) : Nat :=
  (ts.filter fun t => t = .ell).length

/-! ## Recency tracker (`recents_maybe_append`, `generate_recents_grid`) -/

/-- One recency record: `{"ts": timestamp, "theme": entry name}`.
Timestamps are modelled as integers (`datetime` is totally ordered). -/
structure RecRecord where
  ts : Int
  theme : String
deriving DecidableEq, Repr

/-- `recents_maybe_append(recents, timestamp, theme)` from the source:
append while the collection holds fewer than `MAX_RECENTS` records, or
when the timestamp exceeds that of at least one existing member.
`MAX_RECENTS` lives in `defs.py`, which is not in `src/`; the cap is
therefore taken as an explicit parameter. -/
def recents_maybe_append (maxRecents : Nat) (recents : List RecRecord)
    (timestamp : Int) (theme : String) : List RecRecord :=
  if recents.length < maxRecents ∨ recents.any (fun item => timestamp > item.ts) then
    recents ++ [⟨timestamp, theme⟩]
  else recents

/-- `items.sort(key=lambda item: item["ts"], reverse=True)`: sort by
timestamp descending. -/
def sortDescByTs (items : List RecRecord) : List RecRecord :=
  items.mergeSort fun a b => decide (b.ts ≤ a.ts)

/-- The records actually read by `generate_recents_grid`: sorted by
timestamp descending and truncated to the cap (`items[:MAX_RECENTS]`). -/
def recents_read (maxRecents : Nat) (items : List RecRecord) : List RecRecord :=
  (sortDescByTs items).take maxRecents

/-- `generate_recents_grid(items)` from the source: sort descending, keep
the first `MAX_RECENTS`, render each record's theme and join with blank
lines into the grid template (template substitution is a collaborator,
passed as `grid_tpl`; per-item rendering as `item_of`). -/
def generate_recents_grid (maxRecents : Nat) (grid_tpl : String → String)
    (item_of : String → String) (items : List RecRecord) : String :=
  grid_tpl (joinSep "\n\n" ((recents_read maxRecents items).map fun it => item_of it.theme))

/-! ## Entry metadata resolver (`generate_item`) -/

/-- The optional configuration record of a non-container entry
(`config.json`: optional `name`, `author`, `description` fields). -/
structure ThemeConfig where
  name : Option String
  author : Option String
  description : Option String
deriving DecidableEq, Repr

/-- One icon pack discovered while resolving a theme (the `IconPack`
record of `generate_icons.py`, which is not in `src/`; fields modelled
from the constructor call in `generate_item`). -/
structure IconPack where
  dir_name : String
  dir_path : String
  theme : String
  release_url : String
  theme_subdir : String
deriving DecidableEq, Repr

/-- The run-scoped accumulator state fed by `generate_item` when
`collect_data` is set: the icon-pack collector and the two recency
collections. -/
structure CollectState where
  themes_icon_packs : List IconPack
  recently_added : List RecRecord
  recently_updated : List RecRecord
deriving DecidableEq, Repr

/-- A fatal error of the generator run: a non-container entry whose
`config.json` is missing or unparsable (Python raises out of
`generate_item`, aborting the run). -/
inductive GenError where
  | configError (theme : String)
deriving DecidableEq, Repr

/-- The outcome of one successful `generate_item` call: the rendered
fragment, the updated accumulator state, and the diagnostics printed. -/
structure GenResult where
  fragment : String
  state : CollectState
  log : List String
deriving DecidableEq, Repr

/-- Split at the first occurrence of `sep`: Python
`s.split(sep, maxsplit=1)`, returning the part before the separator and,
when the separator occurs, the rest of the string. -/
def splitFirstAux (sep : List Char) (acc : List Char) : List Char → List Char × Option (List Char)
  | [] => (acc.reverse, none)
  | c :: rest =>
    if sep.isPrefixOf (c :: rest) then (acc.reverse, some ((c :: rest).drop sep.length))
    else splitFirstAux sep (c :: acc) rest

/-- Python `s.split(sep, maxsplit=1)` as (before, optional after). -/
def splitFirstOn (sep s : String) : String × Option String :=
  let r := splitFirstAux sep.data [] s.data
  (String.mk r.1, r.2.map String.mk)

/-- `os.path.join` for the simple two-component case used here. -/
def pathJoin (a b : String) : String :=
  if a = "" then b else a ++ "/" ++ b

/-- `os.path.basename` for the slash-separated paths used here. -/
def basename (p : String) : String :=
  String.mk (((p.data.reverse).takeWhile (· ≠ '/')).reverse)

/-- Modelled from the spec: `from_src` of `defs.py` (not in `src/`)
resolves a path relative to the script directory; the resolution itself
is a filesystem concern, so it is modelled as the identity on the path
handed to the `is_file` collaborator. -/
def from_src (p : String) : String := p

/-- Modelled from the spec: the number of grid columns (`THEMES_COLS` in
`defs.py`, not in `src/`). -/
def THEMES_COLS : Nat := 3

/-- Modelled from the spec: the column-spanner snippet
(`THEMES_COLUMN_SPANNER` in `defs.py`, not in `src/`). -/
def THEMES_COLUMN_SPANNER : String := "<sub>COLUMN</sub>"

/-- Modelled from the spec: Python `f"{100 / THEMES_COLS:.2f}%"`
(float formatting is outside the embedding). -/
def THEMES_COLUMN_WIDTH : String := "33.33%"

/-- Modelled from the spec: icon snippets from `defs.py` (not in `src/`). -/
def BGM_ICON : String := "BGM_ICON"

/-- Modelled from the spec: icon snippet from `defs.py` (not in `src/`). -/
def HAS_ICONPACK_ICON : String := "HAS_ICONPACK_ICON"

/-- Modelled from the spec: icon snippet from `defs.py` (not in `src/`). -/
def README_ICON : String := "README_ICON"

/-- Modelled from the spec: icon snippet from `defs.py` (not in `src/`). -/
def AUTHOR_ICON : String := "AUTHOR_ICON"

/-- The external collaborators consumed by `generate_item`, following the
spec's collaborator interfaces: validation, filesystem queries, the
revision-history query, URL encoding, date formatting, template
rendering, and the policy tables of modules not in `src/`
(`themes_featured` order list, `icons_blacklist`, `generate_icon_pack_url`),
plus the `MAX_RECENTS` cap from `defs.py`. -/
structure ItemEnv where
  validate : String → Bool × Bool
  config : String → Option ThemeConfig
  subdirs : String → List String
  path_exists : String → Bool
  is_file : String → Bool
  is_dir : String → Bool
  git_last_changed : String → Option Int
  git_commit_count : String → Nat
  urlencode : String → String
  format_date : Int → String
  render_item : List (String × String) → String
  themes_featured : List String
  icons_blacklist : List String
  icon_pack_url : String → List String → String
  max_recents : Nat

/-- The name/author/description resolution step of `generate_item`
(lines 205–220): split the entry name on `" by "`, then — for a
non-container entry — require a configuration record, whose `name`,
`author`, `description` fields override the split-derived values. -/
def resolve_meta_fields (theme : String) (has_subdirs : Bool) (cfg? : Option ThemeConfig) :
    Except GenError (String × String × String) :=
  let ns := splitFirstOn " by " theme
  let name := ns.1
  let author := ns.2.getD ""
  if !has_subdirs then
    match cfg? with
    | none => .error (.configError theme)
    | some cfg => .ok (cfg.name.getD name, cfg.author.getD author, cfg.description.getD "")
  else .ok (name, author, "")

/-- `generate_item(theme, index, collect_data)` from the source.  An
invalid entry yields an empty fragment, a diagnostic, and an unchanged
state; a non-container entry with a missing/unparsable `config.json` is a
fatal error; otherwise the fragment is the substituted item template and,
when `collect_data` is set, the icon-pack and recency collections are fed. -/
def generate_item (env : ItemEnv) (st : CollectState) (theme : String)
    (index : Nat) (collect_data : Bool) : Except GenError GenResult :=
  let dir_path := pathJoin THEME_DIR theme
  let vres := env.validate dir_path
  let has_subdirs := vres.2
  if !vres.1 then
    .ok ⟨"", st, ["  invalid theme: " ++ theme]⟩
  else
    match resolve_meta_fields theme has_subdirs (env.config dir_path) with
    | .error e => .error e
    | .ok (name, author, description) =>
      let is_featured := env.themes_featured.contains theme
      let theme_subdirs :=
        if has_subdirs then (env.subdirs dir_path).map (fun sub => "themes/" ++ theme ++ "/" ++ sub)
        else ["themes/" ++ theme]
      let first_subdir := theme_subdirs.headD ""
      let preview_url :=
        if env.path_exists ("themes/" ++ theme ++ "/preview.png") then
          "https://raw.githubusercontent.com/OnionUI/Themes/main/themes/" ++ env.urlencode theme ++ "/preview.png"
        else
          "https://raw.githubusercontent.com/OnionUI/Themes/main/" ++ env.urlencode first_subdir ++ "/preview.png"
      let release_url := "https://raw.githubusercontent.com/OnionUI/Themes/main/release/" ++ env.urlencode theme ++ ".zip"
      let history_url := "https://github.com/OnionUI/Themes/commits/main/themes/" ++ theme
      let last_changed := env.git_last_changed dir_path
      let last_updated := match last_changed with | some t => env.format_date t | none => ""
      let commit_count := env.git_commit_count dir_path
      let has_bgm := env.is_file (from_src ("../" ++ first_subdir ++ "/sound/bgm.mp3"))
      let has_icon_pack := theme_subdirs.any fun sub => env.is_dir (sub ++ "/icons")
      let readme_path :=
        (README_TEST.findSome? fun rdme =>
          theme_subdirs.findSome? fun sub =>
            let p := pathJoin sub rdme
            if env.is_file p then some p else none).getD ""
      let title :=
        (if name ≠ "" then "Name: " ++ name ++ "&#013;" else "")
          ++ (if author ≠ "" then "Author: " ++ author ++ "&#013;" else "")
          ++ (if last_updated ≠ "" then "Last updated: " ++ last_updated ++ "&#013;" else "")
          ++ (if description ≠ "" then "Description: " ++ description ++ "&#013;" else "")
          ++ (if is_featured then "Tags: [featured theme]&#013;" else "")
          ++ "(Click to download)"
      let fields : List (String × String) :=
        [("NAME", if is_featured then name ++ " ★" else name),
         ("AUTHOR", if author ≠ "" then author else "&nbsp;"),
         ("TITLE", title),
         ("HAS_BGM", if has_bgm then
             NB_SPACER ++ "<a href=\"https://onionui.github.io/bgm_preview.html?theme="
               ++ env.urlencode (first_subdir.drop 7) ++ "\">" ++ BGM_ICON ++ "</a>"
           else ""),
         ("HAS_ICONPACK", if has_icon_pack then
             LB_SPACER ++ "<a href=\"" ++ env.icon_pack_url theme theme_subdirs ++ "\">" ++ HAS_ICONPACK_ICON ++ "</a>"
           else ""),
         ("README", if readme_path.length ≠ 0 then
             NB_SPACER ++ "<a href=\"" ++ env.urlencode readme_path ++ "\">" ++ README_ICON ++ "</a>"
           else ""),
         ("AUTHOR_BTN", if author ≠ "" then
             NB_SPACER ++ "<a href=\"https://github.com/search?l=ZIP&q=filename%3A%22"
               ++ env.urlencode author ++ "%22+repo%3AOnionUI%2FThemes\">" ++ AUTHOR_ICON ++ "</a>"
           else ""),
         ("UPDATED", if 1 < commit_count then last_updated ++ " (v" ++ Nat.repr commit_count ++ ")" else last_updated),
         ("PREVIEW_URL", preview_url),
         ("RELEASE_URL", release_url),
         ("HISTORY_URL", history_url),
         ("COLUMN_SPANNER", if index < THEMES_COLS then THEMES_COLUMN_SPANNER else ""),
         ("COLUMN_WIDTH", THEMES_COLUMN_WIDTH)]
      let st1 :=
        if collect_data then
          let st' :=
            if has_icon_pack then
              let valid_subdirs := theme_subdirs.filter fun sub =>
                env.is_dir (sub ++ "/icons") && !env.icons_blacklist.contains (basename sub)
              ⟨st.themes_icon_packs ++ valid_subdirs.map fun sub =>
                 ⟨basename sub, pathJoin sub "icons", theme, release_url, sub⟩,
               st.recently_added, st.recently_updated⟩
            else st
          match last_changed with
          | some t =>
            if commit_count ≤ 1 then
              ⟨st'.themes_icon_packs,
               recents_maybe_append env.max_recents st'.recently_added t theme,
               st'.recently_updated⟩
            else
              ⟨st'.themes_icon_packs, st'.recently_added,
               recents_maybe_append env.max_recents st'.recently_updated t theme⟩
          | none => st'
        else st
      .ok ⟨env.render_item fields, st1, []⟩

/-! ## Auxiliary definitions for the statements -/

/-- The filename rule exactly as the spec words it (the reference side of
the refinement claim about `format_page_filename`): `index.md` for page 0;
otherwise `index-<prefix>-<digest>.md` where `<prefix>` is
`numPages - page` zero-padded to width 2 and `<digest>` is the first 2 hex
characters of the SHAKE-128 hash of the prefix string. -/
def pageFilenameSpec (page num_pages : Nat) : String :=
  if page = 0 then "index.md"
  else
    "index-" ++ pad2 (num_pages - page) ++ "-"
      ++ (shake_128_hexdigest (utf8Bytes (pad2 (num_pages - page))) 2).take 2 ++ ".md"

/-- Feed a sequence of records through `recents_maybe_append`, in order. -/
def insertAllRecs (maxRecents : Nat) (recs : List RecRecord) (st : List RecRecord) : List RecRecord :=
  recs.foldl (fun acc r => recents_maybe_append maxRecents acc r.ts r.theme) st

/-- A concrete collaborator environment for `write_pages` (used to
instantiate the universally quantified theorems at a concrete input). -/
def natPageEnv : PageEnv Nat :=
  ⟨fun _ => "HEADER\n", fun batch => "GRID(" ++ Nat.repr batch.length ++ ")", "Custom themes"⟩

/-- A concrete collaborator environment under which every entry validates
as a non-container and no `config.json` exists. -/
def envNoConfig : ItemEnv :=
  ⟨fun _ => (true, false), fun _ => none, fun _ => [], fun _ => false, fun _ => false,
   fun _ => false, fun _ => none, fun _ => 0, fun s => s, fun _ => "", fun _ => "",
   [], [], fun _ _ => "", 10⟩

/-- A concrete collaborator environment under which no entry validates. -/
def envInvalid : ItemEnv :=
  ⟨fun _ => (false, false), fun _ => none, fun _ => [], fun _ => false, fun _ => false,
   fun _ => false, fun _ => none, fun _ => 0, fun s => s, fun _ => "", fun _ => "",
   [], [], fun _ _ => "", 10⟩

/-- An empty accumulator state. -/
def emptyCollect : CollectState := ⟨[], [], []⟩

/-! ## Theorems -/

theorem num_pages_of_zero (ps : Nat) (hps : 1 ≤ ps) : num_pages_of 0 ps = 0 := by
  unfold num_pages_of
  exact Nat.div_eq_of_lt (by omega)

theorem num_pages_of_succ (t ps : Nat) (hps : 1 ≤ ps) (ht : 1 ≤ t) :
    num_pages_of t ps = num_pages_of (t - ps) ps + 1 := by
  unfold num_pages_of
  have e : t + ps - 1 = (t - 1) + ps := by omega
  rw [e, Nat.add_div_right _ (by omega)]
  rcases le_or_lt t ps with hle | hlt
  · have h1 : t - ps = 0 := by omega
    rw [h1, Nat.div_eq_of_lt (by omega), Nat.div_eq_of_lt (by omega)]
  · have e2 : t - ps + ps - 1 = (t - ps - 1) + ps := by omega
    rw [e2, Nat.add_div_right _ (by omega)]
    have e3 : t - 1 = (t - ps - 1) + ps := by omega
    rw [e3, Nat.add_div_right _ (by omega)]

theorem num_pages_of_ceil (t ps : Nat) (hps : 1 ≤ ps) :
    t ≤ ps * num_pages_of t ps ∧ (0 < num_pages_of t ps → ps * (num_pages_of t ps - 1) < t) := by
  unfold num_pages_of
  have hdm := Nat.div_add_mod (t + ps - 1) ps
  have hmod := Nat.mod_lt (t + ps - 1) (show 0 < ps by omega)
  constructor
  · omega
  · intro hq
    have h1 : ps * ((t + ps - 1) / ps - 1) = ps * ((t + ps - 1) / ps) - ps := by
      rw [Nat.mul_sub, Nat.mul_one]
    have h2 : ps ≤ ps * ((t + ps - 1) / ps) := Nat.le_mul_of_pos_right ps hq
    omega

theorem page_batch_shift {α : Type} (l : List α) (ps : Nat) :
    (page_batch l ps) ∘ Nat.succ = page_batch (l.drop ps) ps := by
  funext p
  unfold page_batch
  simp only [Function.comp_apply, List.drop_drop]
  rw [Nat.succ_mul, Nat.add_comm ps (p * ps)]

theorem flatten_page_batches {α : Type} (ps : Nat) (hps : 1 ≤ ps) :
    ∀ (N : Nat) (items : List α), items.length ≤ N →
      ((List.range (num_pages_of items.length ps)).map (page_batch items ps)).flatten = items := by
  intro N
  induction N with
  | zero =>
    intro items h
    have hnil : items = [] := List.eq_nil_of_length_eq_zero (by omega)
    subst hnil
    simp [num_pages_of_zero ps hps]
  | succ N ih =>
    intro items h
    cases items with
    | nil => simp [num_pages_of_zero ps hps]
    | cons a rest =>
      have ht : 1 ≤ (a :: rest).length := by simp
      rw [num_pages_of_succ _ ps hps ht, List.range_succ_eq_map, List.map_cons, List.map_map,
        page_batch_shift, List.flatten_cons]
      have hlen : ((a :: rest).drop ps).length ≤ N := by
        simp only [List.length_drop]
        simp only [List.length_cons] at h ⊢
        omega
      have hrw : (a :: rest).length - ps = ((a :: rest).drop ps).length := by
        simp [List.length_drop]
      rw [hrw, ih ((a :: rest).drop ps) hlen]
      have h0 : page_batch (a :: rest) ps 0 = (a :: rest).take ps := by
        simp [page_batch]
      rw [h0, List.take_append_drop]

/-- Claim C1: for every input list and page size ≥ 1, `write_pages`
produces exactly `ceil(total/pageSize)` pages; page `p` renders the
contiguous slice `[p*pageSize, p*pageSize+pageSize)` of the input in its
given order, and the page batches, concatenated in page order, are exactly
the input — so the pages are disjoint, ordered, cover the input with no
item duplicated or dropped, and never reorder it. -/
theorem write_pages_partition {α : Type} (env : PageEnv α) (g : String) (items : List α)
    (ps : Nat) (hps : 1 ≤ ps) :
    (write_pages env items g ps).length = num_pages_of items.length ps ∧
    items.length ≤ ps * num_pages_of items.length ps ∧
    (0 < num_pages_of items.length ps → ps * (num_pages_of items.length ps - 1) < items.length) ∧
    (∀ page, page_batch items ps page = (items.drop (page * ps)).take ps) ∧
    ((List.range (num_pages_of items.length ps)).map (page_batch items ps)).flatten = items ∧
    (∀ page, page < num_pages_of items.length ps →
      (write_pages env items g ps).getD page ("", "") =
        (page_path g page (num_pages_of items.length ps),
         WARN_GENERATED_FILE ++ page_buffer env items g ps page)) := by
  refine ⟨?_, (num_pages_of_ceil items.length ps hps).1, (num_pages_of_ceil items.length ps hps).2,
    fun page => rfl, flatten_page_batches ps hps items.length items (le_refl _), ?_⟩
  · unfold write_pages
    simp
  · intro page hp
    unfold write_pages
    rw [List.getD_eq_getElem?_getD, List.getElem?_map, List.getElem?_range hp]
    rfl

theorem write_pages_partition_witness :
    1 ≤ 2 ∧
    ((write_pages natPageEnv [10, 20, 30] "custom" 2).length = num_pages_of 3 2 ∧
     3 ≤ 2 * num_pages_of 3 2 ∧
     (0 < num_pages_of 3 2 → 2 * (num_pages_of 3 2 - 1) < 3) ∧
     (∀ page, page_batch [10, 20, 30] 2 page = ([10, 20, 30].drop (page * 2)).take 2) ∧
     ((List.range (num_pages_of 3 2)).map (page_batch [10, 20, 30] 2)).flatten = [10, 20, 30] ∧
     (∀ page, page < num_pages_of 3 2 →
       (write_pages natPageEnv [10, 20, 30] "custom" 2).getD page ("", "") =
         (page_path "custom" page (num_pages_of 3 2),
          WARN_GENERATED_FILE ++ page_buffer natPageEnv [10, 20, 30] "custom" 2 page))) :=
  ⟨by decide, write_pages_partition natPageEnv "custom" [10, 20, 30] 2 (by decide)⟩

/-- Claim C2: the page filename function maps page 0 to exactly
`index.md` (for every page count), and every page `p ≥ 1` to
`index-<prefix>-<digest>.md` where `<prefix>` is `numPages - p` zero-padded
to width 2 and `<digest>` is the first 2 hex characters of the SHAKE-128
hash of the prefix string; being a pure function of `(page, numPages)`,
it always yields a byte-identical filename for the same pair. -/
theorem format_page_filename_rule (page num_pages : Nat) :
    format_page_filename page num_pages = pageFilenameSpec page num_pages ∧
    format_page_filename 0 num_pages = "index.md" ∧
    format_page_filename (page + 1) num_pages
      = "index-" ++ pad2 (num_pages - (page + 1)) ++ "-"
        ++ (shake_128_hexdigest (utf8Bytes (pad2 (num_pages - (page + 1)))) 2).take 2 ++ ".md" := by
  refine ⟨?_, rfl, rfl⟩
  by_cases h : page = 0 <;> simp [format_page_filename, pageFilenameSpec, h]

/-- Concrete evaluation of the SHAKE-128 pipeline: the digest of the
prefix "01" starts with `79`, so the second page of a two-page set is
named `index-01-79.md` (matching CPython's `hashlib.shake_128`); the
standard empty-message SHAKE-128 test vector also holds. -/
theorem format_page_filename_digest_example :
    format_page_filename 1 2 = "index-01-79.md" ∧
    shake_128_hexdigest (utf8Bytes "") 4 = "7f9c2ba4" :=
  ⟨by decide, by decide⟩

/-- Claim C10: for an empty items list the Paginator computes
`numPages = 0` and writes zero page files — not even an `index.md`. -/
theorem write_pages_empty_none {α : Type} (env : PageEnv α) (g : String) (ps : Nat)
    (hps : 1 ≤ ps) :
    num_pages_of (List.length ([] : List α)) ps = 0 ∧
    write_pages env ([] : List α) g ps = [] := by
  have h0 : num_pages_of 0 ps = 0 := num_pages_of_zero ps hps
  refine ⟨by simpa using h0, ?_⟩
  unfold write_pages
  simp only [List.length_nil, h0, List.range_zero, List.map_nil]

theorem write_pages_empty_none_witness :
    1 ≤ 12 ∧
    (num_pages_of (List.length ([] : List Nat)) 12 = 0 ∧
     write_pages natPageEnv ([] : List Nat) "custom" 12 = []) :=
  ⟨by decide, write_pages_empty_none natPageEnv "custom" 12 (by decide)⟩

theorem str_suffix_infix (a c : String) : c.data <:+: (a ++ c).data :=
  ⟨a.data, [], by simp [String.data_append]⟩

/-- Claim C3 (counterexample): with 13 items and page size 12 the code
produces 2 pages, but page 0 — the page written to `index.md` — holds the
first 12 items, not 1 item as claimed. -/
theorem write_pages_13_claim_false :
    num_pages_of (List.range 13).length 12 = 2 ∧
    (page_batch (List.range 13) 12 0).length = 12 ∧
    ((page_batch (List.range 13) 12 0).length = 1 → False) := by
  decide

/-- Claim C3 (amended): 13 items with page size 12 produce exactly 2
pages; page 0 (the one named `index.md`) holds the first 12 items and
page 1 holds the remaining 1 item, and the pagination navigation rendered
on each of the two pages links to the other page's filename. -/
theorem write_pages_13_pages {α : Type} (env : PageEnv α) (g : String) (items : List α)
    (h13 : items.length = 13) :
    num_pages_of items.length 12 = 2 ∧
    (write_pages env items g 12).length = 2 ∧
    page_batch items 12 0 = items.take 12 ∧
    (page_batch items 12 0).length = 12 ∧
    page_batch items 12 1 = items.drop 12 ∧
    (page_batch items 12 1).length = 1 ∧
    (format_page_filename 1 2).data <:+: (generate_pagination 0 2).data ∧
    (format_page_filename 0 2).data <:+: (generate_pagination 1 2).data ∧
    (∀ page, page < 2 →
      (write_pages env items g 12).getD page ("", "") =
        (page_path g page 2, WARN_GENERATED_FILE ++ page_buffer env items g 12 page) ∧
      (generate_pagination page 2).data <:+: (page_buffer env items g 12 page).data) := by
  have hnp : num_pages_of 13 12 = 2 := by decide
  have hnp' : num_pages_of items.length 12 = 2 := by rw [h13]; exact hnp
  refine ⟨hnp', ?_, by simp [page_batch], ?_, ?_, ?_, by decide, by decide, ?_⟩
  · unfold write_pages
    simp [hnp']
  · simp [page_batch, List.length_take, h13]
  · unfold page_batch
    apply List.take_of_length_le
    simp [List.length_drop, h13]
  · unfold page_batch
    simp [List.length_take, List.length_drop, h13]
  · intro page hp
    constructor
    · unfold write_pages
      rw [List.getD_eq_getElem?_getD, List.getElem?_map, hnp', List.getElem?_range hp]
      rfl
    · simp only [page_buffer, h13, hnp]
      rw [if_pos (by decide : (1 : Nat) < 2)]
      exact str_suffix_infix _ _

theorem write_pages_13_pages_witness :
    (List.range 13).length = 13 ∧
    (num_pages_of (List.range 13).length 12 = 2 ∧
     (write_pages natPageEnv (List.range 13) "custom" 12).length = 2 ∧
     page_batch (List.range 13) 12 0 = (List.range 13).take 12 ∧
     (page_batch (List.range 13) 12 0).length = 12 ∧
     page_batch (List.range 13) 12 1 = (List.range 13).drop 12 ∧
     (page_batch (List.range 13) 12 1).length = 1 ∧
     (format_page_filename 1 2).data <:+: (generate_pagination 0 2).data ∧
     (format_page_filename 0 2).data <:+: (generate_pagination 1 2).data ∧
     (∀ page, page < 2 →
       (write_pages natPageEnv (List.range 13) "custom" 12).getD page ("", "") =
         (page_path "custom" page 2,
          WARN_GENERATED_FILE ++ page_buffer natPageEnv (List.range 13) "custom" 12 page) ∧
       (generate_pagination page 2).data <:+:
         (page_buffer natPageEnv (List.range 13) "custom" 12 page).data)) :=
  ⟨by decide, write_pages_13_pages natPageEnv "custom" (List.range 13) (by decide)⟩

theorem recents_maybe_append_lt (m : Nat) (l : List RecRecord) (t : Int) (th : String)
    (h : l.length < m) : recents_maybe_append m l t th = l ++ [⟨t, th⟩] := by
  unfold recents_maybe_append
  rw [if_pos (Or.inl h)]

theorem recents_maybe_append_full (m : Nat) (l : List RecRecord) (t : Int) (th : String)
    (h : m ≤ l.length) :
    (recents_maybe_append m l t th = l ++ [⟨t, th⟩] ↔ ∃ r ∈ l, r.ts < t) ∧
    ((¬∃ r ∈ l, r.ts < t) → recents_maybe_append m l t th = l) := by
  unfold recents_maybe_append
  have hany : ((l.any fun item => t > item.ts) = true) ↔ ∃ r ∈ l, r.ts < t := by
    simp [List.any_eq_true]
  by_cases hc : l.length < m ∨ (l.any fun item => t > item.ts)
  · rw [if_pos hc]
    have hex : ∃ r ∈ l, r.ts < t := by
      rcases hc with hlt | hany'
      · omega
      · exact hany.mp hany'
    exact ⟨⟨fun _ => hex, fun _ => rfl⟩, fun hne => absurd hex hne⟩
  · rw [if_neg hc]
    push_neg at hc
    have hnex : ¬∃ r ∈ l, r.ts < t := fun hex => by
      have := hany.mpr hex
      simp [this] at hc
    refine ⟨⟨fun heq => ?_, fun hex => absurd hex hnex⟩, fun _ => rfl⟩
    have : l.length = l.length + 1 := by
      conv_lhs => rw [heq]
      simp
    omega

theorem insertAllRecs_appends (m : Nat) (hm : 1 ≤ m) :
    ∀ (recs st : List RecRecord),
      (∀ r ∈ recs, ∀ a ∈ st, a.ts < r.ts) →
      recs.Pairwise (fun a b => a.ts < b.ts) →
      insertAllRecs m recs st = st ++ recs := by
  intro recs
  induction recs with
  | nil => intro st _ _; simp [insertAllRecs]
  | cons r rest ih =>
    intro st hall hpw
    have hstep : recents_maybe_append m st r.ts r.theme = st ++ [r] := by
      cases st with
      | nil => rw [recents_maybe_append_lt m [] r.ts r.theme (by simpa using hm)]
      | cons a as =>
        by_cases hlen : (a :: as).length < m
        · rw [recents_maybe_append_lt _ _ _ _ hlen]
        · have hex : ∃ x ∈ (a :: as), x.ts < r.ts :=
            ⟨a, by simp, hall r (by simp) a (by simp)⟩
          exact ((recents_maybe_append_full m (a :: as) r.ts r.theme (by omega)).1).mpr hex
    have hrec : insertAllRecs m (r :: rest) st = insertAllRecs m rest (st ++ [r]) := by
      simp [insertAllRecs, hstep]
    rw [hrec, ih (st ++ [r]) ?_ (List.pairwise_cons.mp hpw).2]
    · simp
    · intro r' hr' a ha
      rcases List.mem_append.mp ha with hin | hin
      · exact hall r' (List.mem_cons_of_mem r hr') a hin
      · have : a = r := by simpa using hin
        subst this
        exact (List.pairwise_cons.mp hpw).1 r' hr'

theorem sorted_desc_perm_eq :
    ∀ {l₁ l₂ : List RecRecord}, l₁.Perm l₂ →
      l₁.Pairwise (fun a b => b.ts ≤ a.ts) →
      l₂.Pairwise (fun a b => b.ts ≤ a.ts) →
      l₁.Pairwise (fun a b => a.ts ≠ b.ts) → l₁ = l₂
  | [], _, hp, _, _, _ => (hp.symm.eq_nil).symm
  | a :: t₁, l₂, hp, hs₁, hs₂, hne => by
    cases l₂ with
    | nil => exact absurd hp.eq_nil (by simp)
    | cons b t₂ =>
      have hab : a = b := by
        by_contra hne'
        have ha2 : a ∈ t₂ := by
          rcases List.mem_cons.mp (hp.mem_iff.mp (List.mem_cons_self a t₁)) with h | h
          · exact absurd h hne'
          · exact h
        have hb1 : b ∈ t₁ := by
          rcases List.mem_cons.mp (hp.symm.mem_iff.mp (List.mem_cons_self b t₂)) with h | h
          · exact absurd h.symm hne'
          · exact h
        have h1 : a.ts ≤ b.ts := (List.pairwise_cons.mp hs₂).1 a ha2
        have h2 : b.ts ≤ a.ts := (List.pairwise_cons.mp hs₁).1 b hb1
        have h3 : a.ts ≠ b.ts := (List.pairwise_cons.mp hne).1 b hb1
        omega
      subst hab
      rw [sorted_desc_perm_eq hp.cons_inv (List.pairwise_cons.mp hs₁).2
        (List.pairwise_cons.mp hs₂).2 (List.pairwise_cons.mp hne).2]


theorem sortDescByTs_sorted (items : List RecRecord) :
    (sortDescByTs items).Pairwise (fun a b => b.ts ≤ a.ts) := by
  have h : (items.mergeSort fun a b => decide (b.ts ≤ a.ts)).Pairwise
      (fun a b : RecRecord => (decide (b.ts ≤ a.ts)) = true) :=
    List.sorted_mergeSort
      (fun a b c h₁ h₂ => by
        simp only [decide_eq_true_eq] at h₁ h₂ ⊢
        omega)
      (fun a b => by
        simp only [Bool.or_eq_true, decide_eq_true_eq]
        omega)
      items
  exact h.imp fun hab => by simpa using hab

theorem sortDescByTs_of_increasing (recs : List RecRecord)
    (hinc : recs.Pairwise fun a b => a.ts < b.ts) :
    sortDescByTs recs = recs.reverse := by
  have hperm : (sortDescByTs recs).Perm recs.reverse :=
    (List.mergeSort_perm recs _).trans (List.reverse_perm recs).symm
  have hs₂ : recs.reverse.Pairwise (fun a b => b.ts ≤ a.ts) := by
    rw [List.pairwise_reverse]
    exact hinc.imp fun h => le_of_lt h
  have hne : (sortDescByTs recs).Pairwise (fun a b => a.ts ≠ b.ts) := by
    have hne0 : recs.Pairwise (fun a b => a.ts ≠ b.ts) := hinc.imp fun h => ne_of_lt h
    exact ((List.mergeSort_perm recs _).pairwise_iff fun h => h.symm).mpr hne0
  exact sorted_desc_perm_eq hperm (sortDescByTs_sorted recs) hs₂ hne

/-- Claim C4: `recents_maybe_append` appends unconditionally while the
collection holds fewer than the cap, and at or above the cap appends iff
the timestamp strictly exceeds that of at least one member; the read
operation sorts descending and truncates to the cap, so inserting
`cap + k` records with strictly increasing timestamps leaves, after a
read, exactly the `cap` most recent records sorted descending. -/
theorem recents_topN (m k : Nat) (hm : 1 ≤ m) (recs : List RecRecord)
    (hlen : recs.length = m + k)
    (hinc : recs.Pairwise fun a b => a.ts < b.ts) :
    insertAllRecs m recs [] = recs ∧
    recents_read m (insertAllRecs m recs []) = recs.reverse.take m ∧
    (recents_read m (insertAllRecs m recs [])).length = m ∧
    (recents_read m (insertAllRecs m recs [])).Pairwise (fun a b => b.ts ≤ a.ts) ∧
    (∀ (st : List RecRecord) (t : Int) (th : String), st.length < m →
      recents_maybe_append m st t th = st ++ [⟨t, th⟩]) ∧
    (∀ (st : List RecRecord) (t : Int) (th : String), m ≤ st.length →
      ((recents_maybe_append m st t th = st ++ [⟨t, th⟩] ↔ ∃ r ∈ st, r.ts < t) ∧
       ((¬∃ r ∈ st, r.ts < t) → recents_maybe_append m st t th = st))) := by
  have part1 : insertAllRecs m recs [] = recs := by
    simpa using insertAllRecs_appends m hm recs [] (by simp) hinc
  have part2 : recents_read m (insertAllRecs m recs []) = recs.reverse.take m := by
    rw [part1]
    unfold recents_read
    rw [sortDescByTs_of_increasing recs hinc]
  have hrev : recs.reverse.Pairwise (fun a b => b.ts ≤ a.ts) := by
    rw [List.pairwise_reverse]
    exact hinc.imp fun h => le_of_lt h
  refine ⟨part1, part2, ?_, ?_, ?_, ?_⟩
  · rw [part2, List.length_take, List.length_reverse, hlen]
    exact Nat.min_eq_left (by omega)
  · rw [part2]
    exact List.Pairwise.sublist (List.take_sublist m _) hrev
  · exact fun st t th h => recents_maybe_append_lt m st t th h
  · exact fun st t th h => recents_maybe_append_full m st t th h

theorem recents_topN_witness :
    (1 ≤ 2 ∧ ([⟨1, "a"⟩, ⟨2, "b"⟩, ⟨3, "c"⟩] : List RecRecord).length = 2 + 1 ∧
      ([⟨1, "a"⟩, ⟨2, "b"⟩, ⟨3, "c"⟩] : List RecRecord).Pairwise (fun a b => a.ts < b.ts)) ∧
    (insertAllRecs 2 [⟨1, "a"⟩, ⟨2, "b"⟩, ⟨3, "c"⟩] [] = [⟨1, "a"⟩, ⟨2, "b"⟩, ⟨3, "c"⟩] ∧
     recents_read 2 (insertAllRecs 2 [⟨1, "a"⟩, ⟨2, "b"⟩, ⟨3, "c"⟩] [])
       = ([⟨1, "a"⟩, ⟨2, "b"⟩, ⟨3, "c"⟩] : List RecRecord).reverse.take 2 ∧
     (recents_read 2 (insertAllRecs 2 [⟨1, "a"⟩, ⟨2, "b"⟩, ⟨3, "c"⟩] [])).length = 2 ∧
     (recents_read 2 (insertAllRecs 2 [⟨1, "a"⟩, ⟨2, "b"⟩, ⟨3, "c"⟩] [])).Pairwise
       (fun a b => b.ts ≤ a.ts) ∧
     (∀ (st : List RecRecord) (t : Int) (th : String), st.length < 2 →
       recents_maybe_append 2 st t th = st ++ [⟨t, th⟩]) ∧
     (∀ (st : List RecRecord) (t : Int) (th : String), 2 ≤ st.length →
       ((recents_maybe_append 2 st t th = st ++ [⟨t, th⟩] ↔ ∃ r ∈ st, r.ts < t) ∧
        ((¬∃ r ∈ st, r.ts < t) → recents_maybe_append 2 st t th = st)))) :=
  ⟨⟨by decide, by decide, by decide⟩,
   recents_topN 2 1 (by decide) [⟨1, "a"⟩, ⟨2, "b"⟩, ⟨3, "c"⟩] (by decide) (by decide)⟩

/-- Claim C7 (counterexample): the insertion rule alone does not keep the
collection within the cap — with cap 2, three inserts with increasing
timestamps leave 3 records in the collection after the run (the code only
truncates inside the read operation, not in the stored list). -/
theorem recents_cap_exceeded :
    2 < (recents_maybe_append 2
          (recents_maybe_append 2 (recents_maybe_append 2 [] 1 "a") 2 "b") 3 "c").length := by
  decide

/-- Claim C7 (amended): what the recency grid reads is capped and sorted:
`generate_recents_grid` renders the records of `recents_read`, which holds
at most `MAX_RECENTS` records sorted by timestamp descending — while the
underlying collection itself may exceed the cap. -/
theorem recents_read_bounded_sorted (m : Nat) (items : List RecRecord)
    (grid_tpl : String → String) (item_of : String → String) :
    (recents_read m items).length ≤ m ∧
    (recents_read m items).Pairwise (fun a b => b.ts ≤ a.ts) ∧
    generate_recents_grid m grid_tpl item_of items
      = grid_tpl (joinSep "\n\n" ((recents_read m items).map fun r => item_of r.theme)) := by
  refine ⟨List.length_take_le m _, ?_, rfl⟩
  exact List.Pairwise.sublist (List.take_sublist m _) (sortDescByTs_sorted items)

/-- Claim C8: for a validated non-container entry, the resolver overrides
the `" by "`-split name/author (and the empty description) with the
configuration record's fields when present; a missing or unparsable
configuration record is a fatal error that aborts the run. -/
theorem generate_item_config_fatal_override (env : ItemEnv) (st : CollectState)
    (theme : String) (i : Nat) (cd : Bool)
    (hval : env.validate (pathJoin THEME_DIR theme) = (true, false)) :
    (env.config (pathJoin THEME_DIR theme) = none →
       generate_item env st theme i cd = .error (.configError theme)) ∧
    (∀ cfg, resolve_meta_fields theme false (some cfg)
        = .ok (cfg.name.getD (splitFirstOn " by " theme).1,
               cfg.author.getD ((splitFirstOn " by " theme).2.getD ""),
               cfg.description.getD "")) := by
  constructor
  · intro hcfg
    simp only [generate_item, hval, hcfg]
    simp [resolve_meta_fields]
  · intro cfg
    simp [resolve_meta_fields]

theorem generate_item_config_fatal_override_witness :
    envNoConfig.validate (pathJoin THEME_DIR "Sunrise by Alice") = (true, false) ∧
    ((envNoConfig.config (pathJoin THEME_DIR "Sunrise by Alice") = none →
        generate_item envNoConfig emptyCollect "Sunrise by Alice" 0 true
          = .error (.configError "Sunrise by Alice")) ∧
     (∀ cfg, resolve_meta_fields "Sunrise by Alice" false (some cfg)
        = .ok (cfg.name.getD (splitFirstOn " by " "Sunrise by Alice").1,
               cfg.author.getD ((splitFirstOn " by " "Sunrise by Alice").2.getD ""),
               cfg.description.getD ""))) :=
  ⟨rfl, generate_item_config_fatal_override envNoConfig emptyCollect "Sunrise by Alice" 0 true rfl⟩

/-- Claim C9: an entry that fails validation yields an empty rendered
fragment and a diagnostic message, contributes nothing to the icon-pack
or recency collections, and does not abort the run (the call returns
normally). -/
theorem generate_item_invalid_skips (env : ItemEnv) (st : CollectState) (theme : String)
    (i : Nat) (cd : Bool)
    (hval : (env.validate (pathJoin THEME_DIR theme)).1 = false) :
    generate_item env st theme i cd = .ok ⟨"", st, ["  invalid theme: " ++ theme]⟩ := by
  simp [generate_item, hval]

theorem generate_item_invalid_skips_witness :
    (envInvalid.validate (pathJoin THEME_DIR "Broken Theme")).1 = false ∧
    generate_item envInvalid emptyCollect "Broken Theme" 3 true
      = .ok ⟨"", emptyCollect, ["  invalid theme: " ++ "Broken Theme"]⟩ :=
  ⟨rfl, generate_item_invalid_skips envInvalid emptyCollect "Broken Theme" 3 true rfl⟩

theorem strConcat_append (a b : List String) :
    strConcat (a ++ b) = strConcat a ++ strConcat b := by
  induction a with
  | nil => simp [strConcat, String.empty_append]
  | cons s rest ih => simp [strConcat, ih, String.append_assoc]

theorem strConcat_entryToks (c n : Nat) :
    ∀ ps : List Nat, strConcat ((entryToks ps).map (tokStr c n)) = generate_page_link_range ps c n
  | [] => by simp [entryToks, generate_page_link_range, joinSep, strConcat]
  | [p] => by
    simp [entryToks, generate_page_link_range, joinSep, strConcat, tokStr, String.append_empty]
  | p :: q :: rest => by
    simp only [entryToks, List.map_cons, strConcat, tokStr]
    rw [strConcat_entryToks c n (q :: rest)]
    simp only [generate_page_link_range, List.map_cons, joinSep]
    rw [String.append_assoc]

theorem entriesOf_append (a b : List PLTok) :
    entriesOf (a ++ b) = entriesOf a ++ entriesOf b := by
  simp [entriesOf, List.filterMap_append]

theorem entriesOf_entryToks : ∀ ps : List Nat, entriesOf (entryToks ps) = ps
  | [] => rfl
  | [p] => rfl
  | p :: q :: rest => by
    have ih := entriesOf_entryToks (q :: rest)
    simp only [entryToks, entriesOf, List.filterMap_cons] at ih ⊢
    simpa using ih

theorem ellCount_append (a b : List PLTok) :
    ellCount (a ++ b) = ellCount a + ellCount b := by
  simp [ellCount, List.filter_append]

theorem ellCount_entryToks : ∀ ps : List Nat, ellCount (entryToks ps) = 0
  | [] => rfl
  | [p] => rfl
  | p :: q :: rest => by
    have ih := ellCount_entryToks (q :: rest)
    simp only [entryToks, ellCount, List.filter_cons] at ih ⊢
    simpa using ih

theorem entriesOf_nil : entriesOf [] = [] := rfl

theorem entriesOf_cons_entry (p : Nat) (ts : List PLTok) :
    entriesOf (.entry p :: ts) = p :: entriesOf ts := by
  simp [entriesOf]

theorem entriesOf_cons_lit (s : String) (ts : List PLTok) :
    entriesOf (.lit s :: ts) = entriesOf ts := by
  simp [entriesOf]

theorem entriesOf_cons_ell (ts : List PLTok) :
    entriesOf (.ell :: ts) = entriesOf ts := by
  simp [entriesOf]

theorem ellCount_nil : ellCount [] = 0 := rfl

theorem ellCount_cons_entry (p : Nat) (ts : List PLTok) :
    ellCount (.entry p :: ts) = ellCount ts := by
  simp [ellCount]

theorem ellCount_cons_lit (s : String) (ts : List PLTok) :
    ellCount (.lit s :: ts) = ellCount ts := by
  simp [ellCount]

theorem ellCount_cons_ell (ts : List PLTok) :
    ellCount (.ell :: ts) = ellCount ts + 1 := by
  simp [ellCount]

theorem renderToks_eq_links (c n : Nat) :
    renderToks c n (pageLinkToks c n) = generate_page_links c n := by
  unfold renderToks pageLinkToks generate_page_links
  by_cases h9 : n ≤ 9
  · simp only [if_pos h9]
    exact strConcat_entryToks c n (List.range n)
  · simp only [if_neg h9]
    by_cases hlow : c < 5 <;> by_cases hhigh : n - 1 - 5 < c <;>
      simp [-String.reduceAppend, hlow, hhigh, List.map_append, strConcat_append,
        strConcat_entryToks, tokStr, strConcat, generate_page_link_range, joinSep, rangeList,
        String.append_assoc, String.append_empty, String.empty_append]

theorem rangeList_lead : rangeList 1 (5 + 2) = [1, 2, 3, 4, 5, 6] := by decide

theorem rangeList_window (c : Nat) (h5 : 5 ≤ c) :
    rangeList (c - 5 / 2) (c + 5 / 2 + 1) = [c - 2, c - 1, c, c + 1, c + 2] := by
  unfold rangeList
  rw [show c + 5 / 2 + 1 - (c - 5 / 2) = 5 from by omega,
    show List.range 5 = [0, 1, 2, 3, 4] from by decide]
  simp only [List.map_cons, List.map_nil]
  rw [show c - 5 / 2 + 0 = c - 2 from by omega, show c - 5 / 2 + 1 = c - 1 from by omega,
    show c - 5 / 2 + 2 = c from by omega, show c - 5 / 2 + 3 = c + 1 from by omega,
    show c - 5 / 2 + 4 = c + 2 from by omega]

theorem rangeList_trailing (n : Nat) (h10 : 10 ≤ n) :
    rangeList (n - 1 - 5 - 1) (n - 1) = [n - 7, n - 6, n - 5, n - 4, n - 3, n - 2] := by
  unfold rangeList
  rw [show n - 1 - (n - 1 - 5 - 1) = 6 from by omega,
    show List.range 6 = [0, 1, 2, 3, 4, 5] from by decide]
  simp only [List.map_cons, List.map_nil]
  rw [show n - 1 - 5 - 1 + 0 = n - 7 from by omega, show n - 1 - 5 - 1 + 1 = n - 6 from by omega,
    show n - 1 - 5 - 1 + 2 = n - 5 from by omega, show n - 1 - 5 - 1 + 3 = n - 4 from by omega,
    show n - 1 - 5 - 1 + 4 = n - 3 from by omega, show n - 1 - 5 - 1 + 5 = n - 2 from by omega]

/-- Claim C6: for `numPages` in 1..9, the Navigator renders exactly
`numPages` entries, one per page in order 0..numPages-1, exactly one of
which (the current page) is the bold non-link form while all others link
to that page's filename; entries are joined by single spaces, labels are
padded with a non-breaking space on both sides, and no ellipsis appears. -/
theorem page_links_small (n c : Nat) (h1 : 1 ≤ n) (h9 : n ≤ 9) (hc : c < n) :
    renderToks c n (pageLinkToks c n) = generate_page_links c n ∧
    pageLinkToks c n = entryToks (List.range n) ∧
    entriesOf (pageLinkToks c n) = List.range n ∧
    (entriesOf (pageLinkToks c n)).length = n ∧
    (List.range n).count c = 1 ∧
    ellCount (pageLinkToks c n) = 0 ∧
    generate_page_links c n
      = joinSep " " ((List.range n).map fun p => generate_page_link p c n) ∧
    (∀ p, p < n → generate_page_link p c n
        = if p = c then NB_SPACE ++ "**" ++ Nat.repr (p + 1) ++ "**" ++ NB_SPACE
          else "[" ++ NB_SPACE ++ Nat.repr (p + 1) ++ NB_SPACE ++ "]("
            ++ format_page_filename p n ++ ")") := by
  have htoks : pageLinkToks c n = entryToks (List.range n) := by
    unfold pageLinkToks
    rw [if_pos h9]
  refine ⟨renderToks_eq_links c n, htoks, ?_, ?_, ?_, ?_, ?_, fun p _ => rfl⟩
  · rw [htoks, entriesOf_entryToks]
  · rw [htoks, entriesOf_entryToks, List.length_range]
  · exact List.count_eq_one_of_mem (List.nodup_range n) (List.mem_range.mpr hc)
  · rw [htoks, ellCount_entryToks]
  · unfold generate_page_links
    rw [if_pos h9]
    rfl

theorem page_links_small_witness :
    (1 ≤ 5 ∧ 5 ≤ 9 ∧ 2 < 5) ∧
    (renderToks 2 5 (pageLinkToks 2 5) = generate_page_links 2 5 ∧
     pageLinkToks 2 5 = entryToks (List.range 5) ∧
     entriesOf (pageLinkToks 2 5) = List.range 5 ∧
     (entriesOf (pageLinkToks 2 5)).length = 5 ∧
     (List.range 5).count 2 = 1 ∧
     ellCount (pageLinkToks 2 5) = 0 ∧
     generate_page_links 2 5
       = joinSep " " ((List.range 5).map fun p => generate_page_link p 2 5) ∧
     (∀ p, p < 5 → generate_page_link p 2 5
         = if p = 2 then NB_SPACE ++ "**" ++ Nat.repr (p + 1) ++ "**" ++ NB_SPACE
           else "[" ++ NB_SPACE ++ Nat.repr (p + 1) ++ NB_SPACE ++ "]("
             ++ format_page_filename p 5 ++ ")")) :=
  ⟨⟨by decide, by decide, by decide⟩, page_links_small 5 2 (by decide) (by decide) (by decide)⟩

/-- Claim C5: for `numPages ≥ 10`, the link strip always begins with the
page-0 entry and ends with the last page's entry; it contains a leading
contiguous range (pages 1..6) exactly when `currentPage < 5` and a leading
ellipsis otherwise, a trailing contiguous range (pages `lastPage-6`..
`lastPage-1`) exactly when `currentPage > lastPage - 5` and a trailing
ellipsis otherwise, and the centered window `currentPage-2..currentPage+2`
of exactly 5 pages exactly when the current page is in neither region —
so the ellipsis count is 0, 1 or 2 accordingly, and the token rendering
equals the string the source builds. -/
theorem page_links_large (n c : Nat) (h10 : 10 ≤ n) (hc : c < n) :
    renderToks c n (pageLinkToks c n) = generate_page_links c n ∧
    entriesOf (pageLinkToks c n)
      = 0 :: ((if c < 5 then [1, 2, 3, 4, 5, 6] else [])
          ++ (if c < 5 ∨ n - 1 - 5 < c then [] else [c - 2, c - 1, c, c + 1, c + 2])
          ++ (if n - 1 - 5 < c then [n - 7, n - 6, n - 5, n - 4, n - 3, n - 2] else [])
          ++ [n - 1]) ∧
    ellCount (pageLinkToks c n)
      = (if c < 5 then 0 else 1) + (if n - 1 - 5 < c then 0 else 1) ∧
    (pageLinkToks c n).head? = some (.entry 0) ∧
    (pageLinkToks c n).getLast? = some (.entry (n - 1)) := by
  have h9 : ¬n ≤ 9 := by omega
  refine ⟨renderToks_eq_links c n, ?_, ?_, ?_, ?_⟩
  · by_cases hlow : c < 5 <;> by_cases hhigh : n - 1 - 5 < c
    · exact absurd hhigh (by omega)
    · simp [pageLinkToks, h9, hlow, hhigh, rangeList_lead, entriesOf_append,
        entriesOf_entryToks, entriesOf_cons_entry, entriesOf_cons_lit, entriesOf_cons_ell,
        entriesOf_nil]
    · simp [pageLinkToks, h9, hlow, hhigh, rangeList_trailing n h10, entriesOf_append,
        entriesOf_entryToks, entriesOf_cons_entry, entriesOf_cons_lit, entriesOf_cons_ell,
        entriesOf_nil]
    · simp [pageLinkToks, h9, hlow, hhigh, rangeList_window c (by omega), entriesOf_append,
        entriesOf_entryToks, entriesOf_cons_entry, entriesOf_cons_lit, entriesOf_cons_ell,
        entriesOf_nil]
  · by_cases hlow : c < 5 <;> by_cases hhigh : n - 1 - 5 < c
    · exact absurd hhigh (by omega)
    · simp [pageLinkToks, h9, hlow, hhigh, ellCount_append, ellCount_entryToks,
        ellCount_cons_entry, ellCount_cons_lit, ellCount_cons_ell, ellCount_nil]
    · simp [pageLinkToks, h9, hlow, hhigh, ellCount_append, ellCount_entryToks,
        ellCount_cons_entry, ellCount_cons_lit, ellCount_cons_ell, ellCount_nil]
    · simp [pageLinkToks, h9, hlow, hhigh, ellCount_append, ellCount_entryToks,
        ellCount_cons_entry, ellCount_cons_lit, ellCount_cons_ell, ellCount_nil]
  · unfold pageLinkToks
    rw [if_neg h9]
    rfl
  · unfold pageLinkToks
    rw [if_neg h9]
    exact List.getLast?_concat _

theorem page_links_large_witness :
    (10 ≤ 20 ∧ 10 < 20) ∧
    (renderToks 10 20 (pageLinkToks 10 20) = generate_page_links 10 20 ∧
     entriesOf (pageLinkToks 10 20) = [0, 8, 9, 10, 11, 12, 19] ∧
     ellCount (pageLinkToks 10 20) = 2 ∧
     (pageLinkToks 10 20).head? = some (.entry 0) ∧
     (pageLinkToks 10 20).getLast? = some (.entry 19)) :=
  ⟨⟨by decide, by decide⟩, page_links_large 20 10 (by decide) (by decide)⟩

end Themes
